import Mathlib

/-!
Shallow embedding of the shipping-carrier-integration-service core
(error classifier `src/domain/errors.ts`, token store `src/carriers/ups/ups.auth.ts`,
rate client `src/carriers/ups/ups.client.ts`, mapper `src/carriers/ups/ups.mapper.ts`,
gateway `src/carriers/ups/ups.service.ts`, and the Zod validation schemas in
`src/domain/validation.ts` / `src/carriers/ups/ups.validation.ts`), together with
theorems settling the specification claims.

JavaScript runtime values that flow through untyped positions (parsed JSON
bodies, error `details`) are modelled by the inductive `JsVal`; thrown
exceptions and other `unknown` raw error values by `JsRaw`.  Machine numbers
are modelled as `Int` (all numeric fields the claims touch are integers);
IEEE-float-only behaviour (`parseFloat` results, fractional weights) is not
relied upon by any claim, so quote cost fields carry the raw pre-parse value.
-/

namespace CarrierService

/-- Model of a JavaScript runtime value as it appears in untyped (`unknown`)
positions: `undefined`, `null`, booleans, (integer) numbers, strings, arrays
and plain objects (association lists, first binding wins). -/
inductive JsVal where
  | undefined
  | jsNull
  | bool (b : Bool)
  | num (n : Int)
  | str (s : String)
  | arr (xs : List JsVal)
  | obj (fields : List (String × JsVal))

/-- Model of a raw `unknown` error value: either an `Error` instance (with
`name` and `message`) or an arbitrary non-Error value. -/
inductive JsRaw where
  | err (name message : String)
  | val (v : JsVal)

/-- JavaScript truthiness of a `JsVal` (`undefined`, `null`, `false`, `0` and
the empty string are falsy; objects and arrays are always truthy). -/
def JsVal.truthy : JsVal → Bool
  | .undefined => false
  | .jsNull => false
  | .bool b => b
  | .num n => n != 0
  | .str s => s ≠ ""
  | .arr _ => true
  | .obj _ => true

/-- Whether `typeof v === 'object' && v !== null` holds (objects and arrays;
`null` is excluded because the source code always pairs the typeof test with
an explicit null check). -/
def JsVal.isObjectType : JsVal → Bool
  | .arr _ => true
  | .obj _ => true
  | _ => false

/-- Own properties visible to `'k' in v` / `v.k` lookups: the bindings of a
plain object; arrays contribute none of the property names the source code
looks up. -/
def JsVal.props : JsVal → List (String × JsVal)
  | .obj fields => fields
  | _ => []

/-- Property lookup `v[k]` restricted to own properties, yielding `undefined`
when absent (used where the receiver is known to be non-nullish). -/
def JsVal.getProp (v : JsVal) (k : String) : JsVal :=
  match v.props.lookup k with
  | some w => w
  | none => .undefined

/-- Property lookup `v[k]` when the value is required to be a string
(`'k' in v && typeof v[k] === 'string'`). -/
def JsVal.getStrProp (v : JsVal) (k : String) : Option String :=
  match v.getProp k with
  | .str s => some s
  | _ => none

/-- The `ErrorSeverity` enum of `src/domain/types.ts`. -/
inductive ErrorSeverity where
  | CLIENT_ERROR
  | SERVER_ERROR
  | NETWORK_ERROR
  | AUTH_ERROR
  | RATE_LIMIT_ERROR
  | VALIDATION_ERROR
  | UNKNOWN_ERROR
deriving DecidableEq, Repr

/-- The `CarrierError` structure of `src/domain/types.ts`.  `details` is a
JS object modelled as an association list; `originalError` holds the wrapped
raw error when present. -/
structure CarrierError where
  severity : ErrorSeverity
  message : String
  code : String
  carrier : Option String := none
  httpStatus : Option Nat := none
  details : Option (List (String × JsVal)) := none
  originalError : Option JsRaw := none

/-- Substring containment on character lists (the semantics of JavaScript
`String.prototype.includes`). -/
def listHasSub (pat : List Char) : List Char → Bool
  | [] => pat.isEmpty
  | c :: rest => pat.isPrefixOf (c :: rest) || listHasSub pat rest

/-- JavaScript `s.includes(pat)`. -/
def strIncludes (s pat : String) : Bool :=
  listHasSub pat.toList s.toList

/-- `createValidationError` of `src/domain/errors.ts:63`. -/
def createValidationError (message : String)
    (details : Option (List (String × JsVal)) := none) : CarrierError :=
  { severity := .VALIDATION_ERROR
    message := message
    code := "VALIDATION_ERROR"
    details := details }

/-- `createNetworkError` of `src/domain/errors.ts:137`. -/
def createNetworkError (message : String) (carrier : Option String)
    (details : Option (List (String × JsVal))) (originalError : Option JsRaw) :
    CarrierError :=
  { severity := .NETWORK_ERROR
    message := message
    code := "NETWORK_ERROR"
    carrier := carrier
    details := details
    originalError := originalError }

/-- `createServerError` of `src/domain/errors.ts:117`. -/
def createServerError (message code : String) (carrier : Option String)
    (httpStatus : Option Nat) (details : Option (List (String × JsVal))) :
    CarrierError :=
  { severity := .SERVER_ERROR
    message := message
    code := code
    carrier := carrier
    httpStatus := httpStatus
    details := details }

/-- `createUnknownError` of `src/domain/errors.ts:179`. -/
def createUnknownError (message : String) (carrier : Option String)
    (originalError : Option JsRaw) (details : Option (List (String × JsVal))) :
    CarrierError :=
  { severity := .UNKNOWN_ERROR
    message := message
    code := "UNKNOWN_ERROR"
    carrier := carrier
    details := details
    originalError := originalError }

/-- `httpStatusToSeverity` of `src/domain/errors.ts:202` (the spec's
`classifyHttpStatus`). -/
def httpStatusToSeverity (status : Nat) : ErrorSeverity :=
  if 400 ≤ status ∧ status < 500 then
    if status = 401 ∨ status = 403 then .AUTH_ERROR
    else if status = 429 then .RATE_LIMIT_ERROR
    else .CLIENT_ERROR
  else if 500 ≤ status then .SERVER_ERROR
  else .UNKNOWN_ERROR

/-- Message extraction from an object-typed HTTP error body, following the
priority chain of `src/domain/errors.ts:239-255`. -/
def httpErrorBodyMessage (bodyObj : JsVal) (fallback : String) : String :=
  match bodyObj.getStrProp "message" with
  | some m => m
  | none =>
    match bodyObj.getStrProp "error" with
    | some e => e
    | none =>
      match bodyObj.getProp "errors" with
      | .arr (firstError :: _) =>
        if firstError.isObjectType then
          match firstError.getStrProp "message" with
          | some m => m
          | none => fallback
        else fallback
      | _ => fallback

/-- `httpErrorToCarrierError` of `src/domain/errors.ts:221` (the spec's
`fromHttpResponse`).  The absent-body case of the optional `body?` parameter
is `JsVal.undefined`. -/
def httpErrorToCarrierError (status : Nat) (statusText : String)
    (body : JsVal) (carrier : Option String) : CarrierError :=
  let severity := httpStatusToSeverity status
  let code := "HTTP_" ++ toString status
  let fallback := "HTTP " ++ toString status ++ ": " ++ statusText
  let message :=
    if body.truthy && body.isObjectType then httpErrorBodyMessage body fallback
    else fallback
  let details : Option (List (String × JsVal)) :=
    if body.truthy then
      if body.isObjectType then some [("responseBody", body)]
      else match body with
        | .str _ => some [("responseBody", body)]
        | _ => none
    else none
  { severity := severity
    message := message
    code := code
    carrier := carrier
    httpStatus := some status
    details := details }

/-- `networkErrorToCarrierError` of `src/domain/errors.ts:276` (the spec's
`fromNetworkFailure`).  Substring tests use `String.prototype.includes`,
which is case-sensitive; the error `name` only participates through the
exact comparison with `'TimeoutError'`. -/
def networkErrorToCarrierError (error : JsRaw) (carrier : Option String)
    (timeout : Option Nat) : CarrierError :=
  match error with
  | .err name msg =>
    let timeoutHit := strIncludes msg "timeout" || strIncludes msg "ETIMEDOUT"
      || name = "TimeoutError"
    let timeoutMessage :=
      match timeout with
      | some t => if t ≠ 0 then "Request timed out after " ++ toString t ++ "ms"
                  else "Request timed out"
      | none => "Request timed out"
    let timeoutVal : JsVal :=
      match timeout with
      | some t => .num t
      | none => .undefined
    let message1 := if timeoutHit then timeoutMessage else msg
    let details := if timeoutHit then some [("timeout", timeoutVal)] else none
    let connHit := strIncludes msg "ECONNREFUSED" || strIncludes msg "ENOTFOUND"
      || strIncludes msg "network"
    let message2 := if connHit then "Failed to connect to carrier API" else message1
    createNetworkError message2 carrier details (some error)
  | .val (.str s) => createNetworkError s carrier none (some error)
  | .val v => createNetworkError "Network error occurred" carrier none (some (.val v))

/-- `jsonParseErrorToCarrierError` of `src/domain/errors.ts:338`. -/
def jsonParseErrorToCarrierError (error : JsRaw) (carrier : Option String)
    (responseText : Option String) : CarrierError :=
  let message :=
    match error with
    | .err name msg =>
      if name = "SyntaxError" then "Invalid JSON response: " ++ msg
      else "JSON parse error: " ++ msg
    | .val _ => "Failed to parse response JSON"
  let textVal : JsVal :=
    match responseText with
    | some t => .str (t.take 500)
    | none => .undefined
  createServerError message "JSON_PARSE_ERROR" carrier none
    (some [("responseText", textVal), ("originalError", .str "raw")])

/-- `unknownErrorToCarrierError` of `src/domain/errors.ts:367` (the spec's
`fromUnexpected`). -/
def unknownErrorToCarrierError (error : JsRaw) (carrier : Option String)
    (context : Option String) : CarrierError :=
  let message :=
    match error with
    | .err _ msg => msg
    | .val (.str s) => s
    | .val v =>
      if v.isObjectType then
        match v.getStrProp "message" with
        | some m => m
        | none => "An unexpected error occurred"
      else "An unexpected error occurred"
  let message :=
    match context with
    | some c => if c ≠ "" then c ++ ": " ++ message else message
    | none => message
  let contextVal : JsVal :=
    match context with
    | some c => .str c
    | none => .undefined
  createUnknownError message carrier (some error) (some [("context", contextVal)])

/-- `isRetryableError` of `src/domain/errors.ts:396`. -/
def isRetryableError (error : CarrierError) : Bool :=
  match error.severity with
  | .NETWORK_ERROR => true
  | .SERVER_ERROR => true
  | .RATE_LIMIT_ERROR => true
  | .AUTH_ERROR => error.code = "TOKEN_EXPIRED"
  | _ => false

end CarrierService

namespace CarrierService

/-! JSON parsing (`JSON.parse`) modelled as a fueled recursive-descent parser
over the `JsVal` model.  Restriction of the shallow embedding: numbers are
integers (fractional or exponent-form literals are rejected), which is
sufficient for every claim; strings support the standard escapes except
`\uXXXX`.  Fuel is bounded below by the input length, so it never runs out
before the input does. -/

/-- Whitespace skipping for the JSON grammar. -/
def skipWs : List Char → List Char
  | c :: rest =>
    if c = ' ' ∨ c = '\t' ∨ c = '\n' ∨ c = '\r' then skipWs rest else c :: rest
  | [] => []

/-- Parse the body of a JSON string literal (after the opening quote). -/
def parseStringBody (acc : List Char) : List Char → Option (String × List Char)
  | '"' :: rest => some (String.mk acc.reverse, rest)
  | '\\' :: c :: rest =>
    if c = '"' then parseStringBody ('"' :: acc) rest
    else if c = '\\' then parseStringBody ('\\' :: acc) rest
    else if c = '/' then parseStringBody ('/' :: acc) rest
    else if c = 'n' then parseStringBody ('\n' :: acc) rest
    else if c = 't' then parseStringBody ('\t' :: acc) rest
    else if c = 'r' then parseStringBody ('\r' :: acc) rest
    else none
  | c :: rest =>
    if c.toNat < 32 then none else parseStringBody (c :: acc) rest
  | [] => none

/-- Parse a run of decimal digits. -/
def parseDigits (acc : Nat) (consumed : Bool) :
    List Char → Option (Nat × List Char)
  | c :: rest =>
    if c.isDigit then parseDigits (acc * 10 + (c.toNat - 48)) true rest
    else if consumed then some (acc, c :: rest) else none
  | [] => if consumed then some (acc, []) else none

/-- Parse a JSON number literal (integers only, see module note). -/
def parseNumber : List Char → Option (JsVal × List Char)
  | '-' :: rest =>
    match parseDigits 0 false rest with
    | some (n, rest') => some (.num (-(n : Int)), rest')
    | none => none
  | l =>
    match parseDigits 0 false l with
    | some (n, rest') => some (.num (n : Int), rest')
    | none => none

mutual

/-- Parse one JSON value. -/
def parseVal : Nat → List Char → Option (JsVal × List Char)
  | 0, _ => none
  | fuel + 1, l =>
    match skipWs l with
    | 'n' :: 'u' :: 'l' :: 'l' :: rest => some (.jsNull, rest)
    | 't' :: 'r' :: 'u' :: 'e' :: rest => some (.bool true, rest)
    | 'f' :: 'a' :: 'l' :: 's' :: 'e' :: rest => some (.bool false, rest)
    | '"' :: rest =>
      match parseStringBody [] rest with
      | some (s, rest') => some (.str s, rest')
      | none => none
    | '[' :: rest =>
      (match skipWs rest with
       | ']' :: rest' => some (.arr [], rest')
       | l' => match parseElems fuel l' with
         | some (xs, rest') => some (.arr xs, rest')
         | none => none)
    | '\x7b' :: rest =>
      (match skipWs rest with
       | '\x7d' :: rest' => some (.obj [], rest')
       | l' => match parseMembers fuel l' with
         | some (fs, rest') => some (.obj fs, rest')
         | none => none)
    | l' => parseNumber l'

/-- Parse the elements of a non-empty JSON array, up to and including `]`. -/
def parseElems : Nat → List Char → Option (List JsVal × List Char)
  | 0, _ => none
  | fuel + 1, l =>
    match parseVal fuel l with
    | some (v, rest) =>
      (match skipWs rest with
       | ',' :: rest' =>
         (match parseElems fuel rest' with
          | some (xs, rest'') => some (v :: xs, rest'')
          | none => none)
       | ']' :: rest' => some ([v], rest')
       | _ => none)
    | none => none

/-- Parse the members of a non-empty JSON object, up to and including the
closing brace. -/
def parseMembers : Nat → List Char → Option (List (String × JsVal) × List Char)
  | 0, _ => none
  | fuel + 1, l =>
    match skipWs l with
    | '"' :: rest =>
      (match parseStringBody [] rest with
       | some (k, rest') =>
         (match skipWs rest' with
          | ':' :: rest'' =>
            (match parseVal fuel rest'' with
             | some (v, rest3) =>
               (match skipWs rest3 with
                | ',' :: rest4 =>
                  (match parseMembers fuel rest4 with
                   | some (fs, rest5) => some ((k, v) :: fs, rest5)
                   | none => none)
                | '\x7d' :: rest4 => some ([(k, v)], rest4)
                | _ => none)
             | none => none)
          | _ => none)
       | none => none)
    | _ => none

end

/-- `JSON.parse(s)` : `none` models a thrown `SyntaxError`. -/
def jsonParse (s : String) : Option JsVal :=
  match parseVal (2 * s.length + 8) s.toList with
  | some (v, rest) =>
    match skipWs rest with
    | [] => some v
    | _ => none
  | none => none

/-- Escape one character for JSON string output. -/
def escapeJsonChar (c : Char) : String :=
  if c = '"' then "\\\""
  else if c = '\\' then "\\\\"
  else if c = '\n' then "\\n"
  else if c = '\t' then "\\t"
  else if c = '\r' then "\\r"
  else String.singleton c

mutual

/-- `JSON.stringify` (only ever applied to string transport bodies by the
embedded code paths; defined totally for completeness, with `undefined`
rendered as `null`). -/
def jsonStringify : JsVal → String
  | .undefined => "null"
  | .jsNull => "null"
  | .bool b => if b then "true" else "false"
  | .num n => toString n
  | .str s => "\"" ++ String.join (s.toList.map escapeJsonChar) ++ "\""
  | .arr xs => "[" ++ jsonStringifyElems xs ++ "]"
  | .obj fs => "\x7b" ++ jsonStringifyFields fs ++ "\x7d"

/-- Comma-joined serialization of array elements. -/
def jsonStringifyElems : List JsVal → String
  | [] => ""
  | [x] => jsonStringify x
  | x :: rest => jsonStringify x ++ "," ++ jsonStringifyElems rest

/-- Comma-joined serialization of object members. -/
def jsonStringifyFields : List (String × JsVal) → String
  | [] => ""
  | (k, v) :: rest =>
    "\"" ++ k ++ "\":" ++ jsonStringify v ++
      (if rest.isEmpty then "" else "," ++ jsonStringifyFields rest)

end

end CarrierService

namespace CarrierService

/-- A Zod validation issue, reduced to the two components the code observes:
the (dot-joined) path and the message. -/
structure ZodIssue where
  path : String
  message : String

/-- `formatValidationError` of `src/domain/validation.ts:276`. -/
def formatValidationError (issues : List ZodIssue) : String :=
  String.intercalate "; "
    (issues.map (fun i => if i.path = "" then i.message else i.path ++ ": " ++ i.message))

/-- The JS `typeof`-style type name Zod reports for a received value. -/
def jsTypeName : JsVal → String
  | .undefined => "undefined"
  | .jsNull => "null"
  | .bool _ => "boolean"
  | .num _ => "number"
  | .str _ => "string"
  | .arr _ => "array"
  | .obj _ => "object"

/-- Representation of a list of Zod issues as a JS value (stored under
`details.validationErrors`; no claim inspects its contents). -/
def issuesToJs (issues : List ZodIssue) : JsVal :=
  .arr (issues.map (fun i => .obj [("path", .str i.path), ("message", .str i.message)]))

/-- The validated `UpsTokenResponse` of `src/carriers/ups/ups.types.ts`. -/
structure UpsTokenResponse where
  access_token : String
  token_type : String
  expires_in : Int
  issued_at : Option String

/-- Issues of a required nonempty-string field of `upsTokenResponseSchema`
(`z.string().min(1, emptyMsg)`; a missing or `undefined` member is
`Required`). -/
def checkStrField (fields : List (String × JsVal)) (key emptyMsg : String) :
    List ZodIssue :=
  match fields.lookup key with
  | none => [⟨key, "Required"⟩]
  | some .undefined => [⟨key, "Required"⟩]
  | some (.str s) => if s = "" then [⟨key, emptyMsg⟩] else []
  | some v => [⟨key, "Expected string, received " ++ jsTypeName v⟩]

/-- Issues of the `expires_in` field of `upsTokenResponseSchema`
(`z.number().int(...).positive(...)`, required).  The `JsVal` number model is
integral, so the `.int()` refinement cannot fail in the embedding. -/
def checkExpiresIn (fields : List (String × JsVal)) : List ZodIssue :=
  match fields.lookup "expires_in" with
  | none => [⟨"expires_in", "Required"⟩]
  | some .undefined => [⟨"expires_in", "Required"⟩]
  | some (.num n) => if n ≤ 0 then [⟨"expires_in", "expires_in must be positive"⟩] else []
  | some v => [⟨"expires_in", "Expected number, received " ++ jsTypeName v⟩]

/-- Issues of the optional `issued_at` field of `upsTokenResponseSchema`
(`z.string().optional()`). -/
def checkIssuedAt (fields : List (String × JsVal)) : List ZodIssue :=
  match fields.lookup "issued_at" with
  | none => []
  | some .undefined => []
  | some (.str _) => []
  | some v => [⟨"issued_at", "Expected string, received " ++ jsTypeName v⟩]

/-- `validateUpsTokenResponseSafe` of `src/carriers/ups/ups.validation.ts`:
the Zod `upsTokenResponseSchema` with `access_token : min-1 string`,
`token_type : min-1 string`, `expires_in : required positive integer`,
`issued_at : optional string`. -/
def validateUpsTokenResponseSafe (v : JsVal) :
    Except (List ZodIssue) UpsTokenResponse :=
  match v with
  | .obj fields =>
    let issues :=
      checkStrField fields "access_token" "access_token is required and cannot be empty" ++
      checkStrField fields "token_type" "token_type is required and cannot be empty" ++
      checkExpiresIn fields ++ checkIssuedAt fields
    if issues.isEmpty then
      match fields.lookup "access_token", fields.lookup "token_type",
          fields.lookup "expires_in" with
      | some (.str at'), some (.str tt), some (.num ei) =>
        .ok { access_token := at', token_type := tt, expires_in := ei
              issued_at := match fields.lookup "issued_at" with
                           | some (.str s) => some s
                           | _ => none }
      | _, _, _ => .error [⟨"", "Expected object, received " ++ jsTypeName v⟩]
    else .error issues
  | .undefined => .error [⟨"", "Required"⟩]
  | _ => .error [⟨"", "Expected object, received " ++ jsTypeName v⟩]

/-- The `UpsToken` structure of `src/carriers/ups/ups.types.ts`
(`expiresAt` is a Unix timestamp in milliseconds). -/
structure UpsToken where
  accessToken : String
  tokenType : String
  expiresAt : Int
deriving DecidableEq, Repr

/-- The fields of `CarrierConfig` (`src/config/types.ts`) the embedded code
paths consume.  Endpoint and credential strings only shape the outgoing URL
and headers, which the outcome-parameterised transport abstracts away. -/
structure CarrierConfig where
  carrierId : String := "ups"
  baseUrl : String := "https://api.ups.com"
  clientId : String := "id"
  clientSecret : String := "secret"
  tokenEndpoint : Option String := none
  timeout : Option Nat := none

/-- Outcome of one transport `post` call: a resolved response (of any HTTP
status, body already decoded by the transport) or a rejection with a raw
error. -/
inductive HttpOutcome where
  | resp (status : Nat) (statusText : String) (body : JsVal)
  | reject (e : JsRaw)

/-- `TOKEN_REFRESH_BUFFER_MS` of `src/carriers/ups/ups.auth.ts:32`. -/
def TOKEN_REFRESH_BUFFER_MS : Int := 5 * 60 * 1000

/-- JavaScript `config.timeout || 30000`. -/
def effectiveTimeout (cfg : CarrierConfig) : Nat :=
  match cfg.timeout with
  | some t => if t ≠ 0 then t else 30000
  | none => 30000

/-- `UpsAuthImpl.acquireToken` of `src/carriers/ups/ups.auth.ts:70`, as a
function of the clock reading and the outcome of the single token-endpoint
transport call.  The `SyntaxError` message text of a failed `JSON.parse` is
host-defined and modelled by a fixed string. -/
def acquireToken (cfg : CarrierConfig) (now : Int) (outcome : HttpOutcome) :
    Except CarrierError UpsToken :=
  let timeout := effectiveTimeout cfg
  match outcome with
  | .reject e =>
    match e with
    | .err name msg =>
      if strIncludes msg "timeout" || strIncludes msg "ETIMEDOUT"
          || strIncludes msg "ECONNREFUSED" || strIncludes msg "ENOTFOUND" then
        .error (networkErrorToCarrierError (.err name msg) (some "ups") (some timeout))
      else
        .error (unknownErrorToCarrierError (.err name msg) (some "ups")
          (some "Failed to acquire token"))
    | .val v =>
      .error (unknownErrorToCarrierError (.val v) (some "ups")
        (some "Failed to acquire token"))
  | .resp status statusText body =>
    if status < 200 ∨ 300 ≤ status then
      .error (httpErrorToCarrierError status statusText body (some "ups"))
    else
      let parseStep : Except CarrierError JsVal :=
        match body with
        | .str s =>
          match jsonParse s with
          | some parsed => .ok parsed
          | none =>
            .error (jsonParseErrorToCarrierError
              (.err "SyntaxError" "Unexpected token in JSON") (some "ups")
              (some (jsonStringify body)))
        | _ => .ok body
      match parseStep with
      | .error e => .error e
      | .ok parsedBody =>
        match validateUpsTokenResponseSafe parsedBody with
        | .error issues =>
          .error (createValidationError
            ("Invalid UPS token response structure: " ++ formatValidationError issues)
            (some [("validationErrors", issuesToJs issues),
                   ("httpStatus", .num (status : Int)),
                   ("originalResponse", parsedBody)]))
        | .ok tokenResponse =>
          let expiresIn :=
            if tokenResponse.expires_in ≠ 0 then tokenResponse.expires_in else 3600
          .ok { accessToken := tokenResponse.access_token
                tokenType := tokenResponse.token_type
                expiresAt := now + expiresIn * 1000 }

/-- `UpsAuthImpl.isTokenValid` of `src/carriers/ups/ups.auth.ts:66`. -/
def isTokenValid (now : Int) (token : UpsToken) : Bool :=
  token.expiresAt > now + TOKEN_REFRESH_BUFFER_MS

/-- `UpsAuthImpl.getValidToken` of `src/carriers/ups/ups.auth.ts:52`, over an
explicit cached-token state.  Returns the result, the new state of
`cachedToken`, and the number of token-endpoint transport calls made. -/
def getValidToken (cfg : CarrierConfig) (state : Option UpsToken) (now : Int)
    (outcome : HttpOutcome) :
    Except CarrierError UpsToken × Option UpsToken × Nat :=
  match state with
  | some cached =>
    if isTokenValid now cached then (.ok cached, some cached, 0)
    else
      match acquireToken cfg now outcome with
      | .ok token => (.ok token, some token, 1)
      | .error e => (.error e, state, 1)
  | none =>
    match acquireToken cfg now outcome with
    | .ok token => (.ok token, some token, 1)
    | .error e => (.error e, state, 1)

end CarrierService

namespace CarrierService

/-- ASCII lowercasing of one character (JavaScript `toLowerCase` restricted
to the ASCII range the recognised substrings use). -/
def asciiToLower (c : Char) : Char :=
  if 'A' ≤ c && c ≤ 'Z' then Char.ofNat (c.toNat + 32) else c

/-- JavaScript `s.toLowerCase()` over the character-list model (kernel
computable, unlike the position-based library lowercasing). -/
def strToLower (s : String) : String :=
  String.mk (s.toList.map asciiToLower)

/-- `UpsClientImpl.getRates` of `src/carriers/ups/ups.client.ts:40`, as a
function of the outcome of the single rate-endpoint transport call.  On a 2xx
response the parsed body is returned unvalidated (the source casts it to
`UpsRateResponse` without calling `validateUpsRateResponseSafe`). -/
def clientGetRates (cfg : CarrierConfig) (outcome : HttpOutcome) :
    Except CarrierError JsVal :=
  let timeout := effectiveTimeout cfg
  match outcome with
  | .reject e =>
    match e with
    | .err name msg =>
      let errorMessage := strToLower msg
      let errorName := strToLower name
      if strIncludes errorMessage "timeout" || strIncludes errorMessage "etimedout"
          || strIncludes errorMessage "econnrefused"
          || strIncludes errorMessage "enotfound"
          || strIncludes errorMessage "connection refused"
          || strIncludes errorMessage "dns lookup"
          || strIncludes errorName "timeout" || strIncludes errorName "econnrefused"
          || strIncludes errorName "enotfound" then
        .error (networkErrorToCarrierError (.err name msg) (some "ups") (some timeout))
      else
        .error (unknownErrorToCarrierError (.err name msg) (some "ups")
          (some "Failed to get rates"))
    | .val v =>
      .error (unknownErrorToCarrierError (.val v) (some "ups")
        (some "Failed to get rates"))
  | .resp status statusText body =>
    if status < 200 ∨ 300 ≤ status then
      .error (httpErrorToCarrierError status statusText body (some "ups"))
    else
      match body with
      | .str s =>
        match jsonParse s with
        | some parsed => .ok parsed
        | none =>
          .error (jsonParseErrorToCarrierError
            (.err "SyntaxError" "Unexpected token in JSON") (some "ups")
            (some (jsonStringify body)))
      | _ => .ok body

/-- JavaScript property access `v.k`: throws a `TypeError` (modelled by
`Except.error ()`) when the receiver is `null`/`undefined`, otherwise yields
the property or `undefined`. -/
def jsAccess (v : JsVal) (k : String) : Except Unit JsVal :=
  match v with
  | .undefined => .error ()
  | .jsNull => .error ()
  | _ => .ok (v.getProp k)

/-- Optional chain step `v?.k`: `undefined` when the receiver is nullish. -/
def jsOptAccess (v : JsVal) (k : String) : JsVal :=
  match v with
  | .undefined => .undefined
  | .jsNull => .undefined
  | _ => v.getProp k

/-- The `RateQuote` produced by `UpsMapperImpl.toRateResponse`
(`src/carriers/ups/ups.mapper.ts:212`).  Fields derived from the unvalidated
payload carry the raw pre-`parseFloat`/`parseInt`/`Date` values, since no
claim observes the numeric conversions. -/
structure RateQuote where
  carrier : String
  serviceLevel : JsVal
  serviceCode : JsVal
  totalCostRaw : JsVal
  currency : JsVal
  estimatedTransitDays : Option JsVal
  estimatedDeliveryDate : Option JsVal

/-- The mapped domain `RateResponse` (`src/domain/types.ts:66`), with
`requestId` carrying the raw `CustomerContext` value. -/
structure MappedRateResponse where
  quotes : List RateQuote
  requestId : JsVal

/-- The per-shipment body of the mapping loop in
`UpsMapperImpl.toRateResponse`, with JavaScript exception semantics for each
property access. -/
def mapShipment (shipment : JsVal) : Except Unit RateQuote := do
  let tc ← jsAccess shipment "TotalCharges"
  let totalCharges ← if tc.truthy then pure tc
    else jsAccess shipment "TransportationCharges"
  let nrc ← jsAccess shipment "NegotiatedRateCharges"
  let nrcVal ←
    match nrc with
    | .undefined => pure JsVal.undefined
    | .jsNull => pure JsVal.undefined
    | v => do
      let totalCharge ← jsAccess v "TotalCharge"
      jsAccess totalCharge "MonetaryValue"
  let costRaw ← if nrcVal.truthy then pure nrcVal
    else jsAccess totalCharges "MonetaryValue"
  let service ← jsAccess shipment "Service"
  let sDesc ← jsAccess service "Description"
  let sCode ← jsAccess service "Code"
  let currency ← jsAccess totalCharges "CurrencyCode"
  let tit ← jsAccess shipment "TimeInTransit"
  let serviceDays := jsOptAccess tit "ServiceDays"
  let estDays := if serviceDays.truthy then some serviceDays else none
  let arrivalDate :=
    jsOptAccess (jsOptAccess (jsOptAccess tit "EstimatedArrival") "Arrival") "Date"
  let estDate := if arrivalDate.truthy then some arrivalDate else none
  pure { carrier := "ups", serviceLevel := sDesc, serviceCode := sCode
         totalCostRaw := costRaw, currency := currency
         estimatedTransitDays := estDays, estimatedDeliveryDate := estDate }

/-- `UpsMapperImpl.toRateResponse` of `src/carriers/ups/ups.mapper.ts:212`
over the unvalidated parsed payload, with JavaScript exception semantics
(`Except.error ()` models a thrown `TypeError`; a truthy non-array
`RatedShipment` makes the `for..of` loop throw). -/
def toRateResponse (response : JsVal) : Except Unit MappedRateResponse := do
  let rr ← jsAccess response "RateResponse"
  let ratedShipment ← jsAccess rr "RatedShipment"
  let quotes ←
    if ratedShipment.truthy then
      match ratedShipment with
      | .arr xs => xs.mapM mapShipment
      | _ => .error ()
    else pure []
  let innerResponse ← jsAccess rr "Response"
  let transactionReference ← jsAccess innerResponse "TransactionReference"
  let requestId := jsOptAccess transactionReference "CustomerContext"
  pure { quotes := quotes, requestId := requestId }

end CarrierService

namespace CarrierService

/-- The domain `Address` of `src/domain/types.ts:11`. -/
structure Address where
  street1 : String
  street2 : Option String := none
  city : String
  stateOrProvince : String
  postalCode : String
  countryCode : String

/-- The domain `Package` of `src/domain/types.ts:23` (numeric fields are
integral in the embedding; the claims only exercise integer weights and
dimensions). -/
structure Package where
  weight : Int
  weightUnit : String
  length : Int
  width : Int
  height : Int
  dimensionUnit : String

/-- The domain `RateRequest` of `src/domain/types.ts:41`. -/
structure RateRequest where
  origin : Address
  destination : Address
  package : Package
  serviceLevel : Option String := none

/-- Character class of the postal-code regex `[A-Z0-9\s-]`. -/
def isPostalChar (c : Char) : Bool :=
  ('A' ≤ c && c ≤ 'Z') || c.isDigit || c = '-' || c.isWhitespace

/-- Uppercase-ASCII-letter test for the country/currency regexes. -/
def isUpperAZ (c : Char) : Bool :=
  'A' ≤ c && c ≤ 'Z'

/-- Issues of a `z.string().min(minLen).max(maxLen)` field. -/
def strLenIssues (path s : String) (minLen maxLen : Nat) (minMsg maxMsg : String) :
    List ZodIssue :=
  (if s.length < minLen then [⟨path, minMsg⟩] else []) ++
  (if s.length > maxLen then [⟨path, maxMsg⟩] else [])

/-- Issues of the `addressSchema` of `src/domain/validation.ts:41` for one
address, with Zod paths rooted at `root`. -/
def addressIssues (root : String) (a : Address) : List ZodIssue :=
  strLenIssues (root ++ ".street1") a.street1 1 100
    "Street address line 1 is required"
    "Street address line 1 must be at most 100 characters" ++
  (match a.street2 with
   | none => []
   | some s2 =>
     if s2.length > 100 then
       [⟨root ++ ".street2", "Street address line 2 must be at most 100 characters"⟩]
     else []) ++
  strLenIssues (root ++ ".city") a.city 1 50
    "City is required" "City must be at most 50 characters" ++
  strLenIssues (root ++ ".stateOrProvince") a.stateOrProvince 1 50
    "State or province is required"
    "State or province must be at most 50 characters" ++
  strLenIssues (root ++ ".postalCode") a.postalCode 3 10
    "Postal code must be at least 3 characters"
    "Postal code must be at most 10 characters" ++
  (if a.postalCode ≠ "" && a.postalCode.toList.all isPostalChar then []
   else [⟨root ++ ".postalCode", "Postal code contains invalid characters"⟩]) ++
  (if a.countryCode.length = 2 then []
   else [⟨root ++ ".countryCode", "Country code must be exactly 2 characters"⟩]) ++
  (if a.countryCode.length = 2 && a.countryCode.toList.all isUpperAZ then []
   else [⟨root ++ ".countryCode", "Country code must be uppercase letters"⟩])

/-- Issues of the `packageSchema` of `src/domain/validation.ts:66`
(`positive()` is strict, `max` is inclusive, units are closed enums). -/
def packageIssues (p : Package) : List ZodIssue :=
  (if p.weight ≤ 0 then [⟨"package.weight", "Weight must be positive"⟩] else []) ++
  (if p.weight > 1000 then
    [⟨"package.weight", "Weight exceeds maximum allowed (1000)"⟩] else []) ++
  (if p.weightUnit = "lbs" ∨ p.weightUnit = "kg" then []
   else [⟨"package.weightUnit", "Weight unit must be \"lbs\" or \"kg\""⟩]) ++
  (if p.length ≤ 0 then [⟨"package.length", "Length must be positive"⟩] else []) ++
  (if p.length > 200 then
    [⟨"package.length", "Length exceeds maximum allowed (200)"⟩] else []) ++
  (if p.width ≤ 0 then [⟨"package.width", "Width must be positive"⟩] else []) ++
  (if p.width > 200 then
    [⟨"package.width", "Width exceeds maximum allowed (200)"⟩] else []) ++
  (if p.height ≤ 0 then [⟨"package.height", "Height must be positive"⟩] else []) ++
  (if p.height > 200 then
    [⟨"package.height", "Height exceeds maximum allowed (200)"⟩] else []) ++
  (if p.dimensionUnit = "in" ∨ p.dimensionUnit = "cm" then []
   else [⟨"package.dimensionUnit", "Dimension unit must be \"in\" or \"cm\""⟩])

/-- `validateRateRequestSafe` of `src/domain/validation.ts:240` as the list of
issues of the `rateRequestSchema` (the request validates iff the list is
empty). -/
def validateRateRequestIssues (r : RateRequest) : List ZodIssue :=
  addressIssues "origin" r.origin ++
  addressIssues "destination" r.destination ++
  packageIssues r.package ++
  (match r.serviceLevel with
   | none => []
   | some sl =>
     strLenIssues "serviceLevel" sl 1 50
       "Service level cannot be empty" "Service level must be at most 50 characters")

/-- Whether a rate request passes the domain schema. -/
def validRateRequest (r : RateRequest) : Bool :=
  (validateRateRequestIssues r).isEmpty

/-- Nonempty-string check `z.string().min(1)`. -/
def isStr1 : JsVal → Bool
  | .str s => s ≠ ""
  | _ => false

/-- Check of an optional plain-string field (`z.string().optional()`:
absent/`undefined` or any string). -/
def optStrOk : JsVal → Bool
  | .undefined => true
  | .str _ => true
  | _ => false

/-- Check of the `CurrencyCode`/`MonetaryValue` charge objects of
`upsRateResponseSchema`. -/
def validMoney (v : JsVal) : Bool :=
  match v with
  | .obj _ => isStr1 (v.getProp "CurrencyCode") && isStr1 (v.getProp "MonetaryValue")
  | _ => false

/-- Check of one element of the `Alert`/`RatedShipmentAlert` arrays. -/
def validAlertItem (v : JsVal) : Bool :=
  match v with
  | .obj _ => optStrOk (v.getProp "Code") && isStr1 (v.getProp "Description")
  | _ => false

/-- Check of one element of the `RatedShipment` array of
`upsRateResponseSchema` (`src/carriers/ups/ups.validation.ts`). -/
def validRatedShipment (v : JsVal) : Bool :=
  match v with
  | .obj _ =>
    (match v.getProp "Service" with
     | .obj _ =>
       isStr1 ((v.getProp "Service").getProp "Code") &&
       isStr1 ((v.getProp "Service").getProp "Description")
     | _ => false) &&
    (match v.getProp "RatedShipmentAlert" with
     | .undefined => true
     | .arr xs => xs.all validAlertItem
     | _ => false) &&
    validMoney (v.getProp "TransportationCharges") &&
    validMoney (v.getProp "TotalCharges") &&
    (match v.getProp "NegotiatedRateCharges" with
     | .undefined => true
     | .obj _ => validMoney ((v.getProp "NegotiatedRateCharges").getProp "TotalCharge")
     | _ => false) &&
    (match v.getProp "TimeInTransit" with
     | .undefined => true
     | .obj _ =>
       let tit := v.getProp "TimeInTransit"
       (match tit.getProp "ServiceLevel" with
        | .undefined => true
        | .obj _ =>
          isStr1 ((tit.getProp "ServiceLevel").getProp "Code") &&
          isStr1 ((tit.getProp "ServiceLevel").getProp "Description")
        | _ => false) &&
       (match tit.getProp "EstimatedArrival" with
        | .undefined => true
        | .obj _ =>
          (match (tit.getProp "EstimatedArrival").getProp "Arrival" with
           | .undefined => true
           | .obj _ =>
             let arrival := (tit.getProp "EstimatedArrival").getProp "Arrival"
             isStr1 (arrival.getProp "Date") && optStrOk (arrival.getProp "Time")
           | _ => false)
        | _ => false) &&
       optStrOk (tit.getProp "ServiceDays")
     | _ => false)
  | _ => false

/-- Conformance to the `upsRateResponseSchema` Zod schema of
`src/carriers/ups/ups.validation.ts` (the carrier rate-response schema the
spec requires 2xx payloads to be validated against). -/
def validUpsRateResponse (v : JsVal) : Bool :=
  match v with
  | .obj _ =>
    (match v.getProp "RateResponse" with
     | .obj _ =>
       let rr := v.getProp "RateResponse"
       (match rr.getProp "Response" with
        | .obj _ =>
          let resp := rr.getProp "Response"
          (match resp.getProp "ResponseStatus" with
           | .obj _ =>
             isStr1 ((resp.getProp "ResponseStatus").getProp "Code") &&
             isStr1 ((resp.getProp "ResponseStatus").getProp "Description")
           | _ => false) &&
          (match resp.getProp "Alert" with
           | .undefined => true
           | .arr xs => xs.all validAlertItem
           | _ => false) &&
          (match resp.getProp "TransactionReference" with
           | .undefined => true
           | .obj _ =>
             optStrOk ((resp.getProp "TransactionReference").getProp "CustomerContext")
           | _ => false)
        | _ => false) &&
       (match rr.getProp "RatedShipment" with
        | .undefined => true
        | .arr xs => xs.all validRatedShipment
        | _ => false)
     | _ => false)
  | _ => false

/-- Inputs of one gateway `getRates` invocation: the token store's starting
state, the clock reading, and the outcomes of the (at most one) token-endpoint
and rate-endpoint transport calls. -/
structure GatewayEnv where
  tokenState : Option UpsToken
  now : Int
  tokenOutcome : HttpOutcome
  rateOutcome : HttpOutcome

/-- Observable outcome of one gateway `getRates` invocation: the returned
`Result`, the token store's state afterwards, and how many transport calls
were made to each endpoint. -/
structure GatewayResult where
  result : Except CarrierError MappedRateResponse
  tokenState : Option UpsToken
  tokenCalls : Nat
  rateCalls : Nat

/-- `UpsService.getRates` of `src/carriers/ups/ups.service.ts:50`.  The
request-transformation step (`mapper.toUpsRateRequest`) only shapes the
outgoing transport request, which the outcome-parameterised transport
abstracts; on validated input it cannot throw.  A `TypeError` thrown by the
response-mapping step reaches the outermost catch; its host-defined message
is modelled by a fixed string. -/
def serviceGetRates (cfg : CarrierConfig) (env : GatewayEnv)
    (request : RateRequest) : GatewayResult :=
  let issues := validateRateRequestIssues request
  if ¬ issues.isEmpty then
    { result := .error (createValidationError (formatValidationError issues)
        (some [("validationErrors", issuesToJs issues)]))
      tokenState := env.tokenState, tokenCalls := 0, rateCalls := 0 }
  else
    match getValidToken cfg env.tokenState env.now env.tokenOutcome with
    | (.error e, newState, tokenCalls) =>
      { result := .error { e with carrier := some "ups" }
        tokenState := newState, tokenCalls := tokenCalls, rateCalls := 0 }
    | (.ok _token, newState, tokenCalls) =>
      match clientGetRates cfg env.rateOutcome with
      | .error e =>
        { result := .error { e with carrier := some "ups" }
          tokenState := newState, tokenCalls := tokenCalls, rateCalls := 1 }
      | .ok data =>
        match toRateResponse data with
        | .ok domainResponse =>
          { result := .ok domainResponse
            tokenState := newState, tokenCalls := tokenCalls, rateCalls := 1 }
        | .error _ =>
          { result := .error (unknownErrorToCarrierError
              (.err "TypeError" "Cannot read properties of undefined")
              (some "ups") (some "Failed to get UPS rates"))
            tokenState := newState, tokenCalls := tokenCalls, rateCalls := 1 }

end CarrierService

namespace CarrierService

/-- Whether an `Except` result is a failure. -/
def isError {ε α : Type} : Except ε α → Bool
  | .error _ => true
  | .ok _ => false

/-- The error of a failed result, when present. -/
def errorOf {ε α : Type} : Except ε α → Option ε
  | .error e => some e
  | .ok _ => none

/-- The quote count of a successful gateway result, when present. -/
def quotesOf : Except CarrierError MappedRateResponse → Option Nat
  | .ok r => some r.quotes.length
  | .error _ => none

/-- Whether a `JsVal` is a string. -/
def JsVal.isStrVal : JsVal → Bool
  | .str _ => true
  | _ => false

/-- Timeout detection condition of `networkErrorToCarrierError`
(`src/domain/errors.ts:288-292`): case-sensitive substring tests on the
message plus an exact name comparison. -/
def timeoutDetected (name msg : String) : Bool :=
  strIncludes msg "timeout" || strIncludes msg "ETIMEDOUT" || name = "TimeoutError"

/-- Connection-failure detection condition of `networkErrorToCarrierError`
(`src/domain/errors.ts:300-304`): case-sensitive substring tests on the
message only. -/
def connectionDetected (msg : String) : Bool :=
  strIncludes msg "ECONNREFUSED" || strIncludes msg "ENOTFOUND"
    || strIncludes msg "network"

/-- The timeout message produced for a detected timeout, as a function of the
(JS-truthy) supplied timeout value. -/
def timeoutMessageFor : Option Nat → String
  | some t => if t ≠ 0 then "Request timed out after " ++ toString t ++ "ms"
              else "Request timed out"
  | none => "Request timed out"

/-- Modelled from the spec (claim C9): the message-priority rule in the
spec's own words — a top-level string `message` field, else a top-level
string `error` field, else the string `message` field of the first element
of an `errors` array, else the fallback.  Stated separately from the
source-derived `httpErrorBodyMessage` so the two can be compared. -/
def specHttpErrorMessage (body : JsVal) (fallback : String) : String :=
  match body.getStrProp "message" with
  | some m => m
  | none =>
    match body.getStrProp "error" with
    | some e => e
    | none =>
      match body.getProp "errors" with
      | .arr (first :: _) =>
        (match first.getStrProp "message" with
         | some m => m
         | none => fallback)
      | _ => fallback

/-- A rate request that passes the domain schema (the shape used throughout
the integration tests). -/
def sampleRequest : RateRequest :=
  { origin := { street1 := "123 Main St", city := "San Francisco",
                stateOrProvince := "CA", postalCode := "94102",
                countryCode := "US" }
    destination := { street1 := "456 Oak Ave", city := "New York",
                     stateOrProvince := "NY", postalCode := "10001",
                     countryCode := "US" }
    package := { weight := 5, weightUnit := "lbs", length := 10,
                 width := 8, height := 6, dimensionUnit := "in" } }

/-- The sample request with a schema-violating (zero) package weight. -/
def zeroWeightRequest : RateRequest :=
  { sampleRequest with
    package := { sampleRequest.package with weight := 0 } }

/-- A successful token-endpoint exchange outcome
(`access_token:"T", token_type:"Bearer", expires_in:3600`). -/
def happyTokenOutcome : HttpOutcome :=
  .resp 200 "OK" (.obj [("access_token", .str "T"), ("token_type", .str "Bearer"),
                        ("expires_in", .num 3600)])

/-- A 2xx rate-endpoint payload that violates `upsRateResponseSchema`
(`RateResponse.Response` is empty: no `ResponseStatus`) and carries no
`RatedShipment`. -/
def nonconformingRateBody : JsVal :=
  .obj [("RateResponse", .obj [("Response", .obj [])])]

/-- A cached credential that is already expired. -/
def staleToken : UpsToken :=
  { accessToken := "stale", tokenType := "Bearer", expiresAt := 1000 }

/-- A failing (HTTP 500) transport outcome. -/
def serverErrorOutcome : HttpOutcome :=
  .resp 500 "Internal Server Error" .jsNull

/-- A failing (HTTP 401) transport outcome with an object body. -/
def unauthorizedOutcome : HttpOutcome :=
  .resp 401 "Unauthorized" (.obj [("error", .str "Invalid credentials")])

end CarrierService

namespace CarrierService

/-- C6: `classifyHttpStatus` (`httpStatusToSeverity`) is a total function and
maps 401/403 to AUTH, 429 to RATE_LIMIT, every other 4xx to CLIENT, every s ≥
500 to SERVER, and every other status to UNKNOWN. -/
theorem classifyHttpStatus_taxonomy (s : Nat) :
    ((s = 401 ∨ s = 403) → httpStatusToSeverity s = .AUTH_ERROR) ∧
    (s = 429 → httpStatusToSeverity s = .RATE_LIMIT_ERROR) ∧
    (400 ≤ s → s < 500 → s ≠ 401 → s ≠ 403 → s ≠ 429 →
      httpStatusToSeverity s = .CLIENT_ERROR) ∧
    (500 ≤ s → httpStatusToSeverity s = .SERVER_ERROR) ∧
    (s < 400 → httpStatusToSeverity s = .UNKNOWN_ERROR) := by
  unfold httpStatusToSeverity
  refine ⟨?_, ?_, ?_, ?_, ?_⟩ <;> intros <;> split_ifs <;> first | rfl | omega

/-- Witness for `classifyHttpStatus_taxonomy` at concrete statuses in each
band. -/
theorem classifyHttpStatus_taxonomy_witness :
    httpStatusToSeverity 401 = .AUTH_ERROR ∧
    httpStatusToSeverity 429 = .RATE_LIMIT_ERROR ∧
    httpStatusToSeverity 418 = .CLIENT_ERROR ∧
    httpStatusToSeverity 503 = .SERVER_ERROR ∧
    httpStatusToSeverity 302 = .UNKNOWN_ERROR :=
  ⟨(classifyHttpStatus_taxonomy 401).1 (Or.inl rfl),
   (classifyHttpStatus_taxonomy 429).2.1 rfl,
   (classifyHttpStatus_taxonomy 418).2.2.1 (by decide) (by decide) (by decide)
     (by decide) (by decide),
   (classifyHttpStatus_taxonomy 503).2.2.2.1 (by decide),
   (classifyHttpStatus_taxonomy 302).2.2.2.2 (by decide)⟩

/-- C4: with a cached credential whose `expiresAt` exceeds `now` plus the
5-minute refresh buffer, `getValidToken` returns the cached credential with
the state unchanged and no transport call; in every other starting state
(expiring credential or empty cache) it performs exactly one token-endpoint
transport call. -/
theorem getValidToken_reuse_or_single_refresh (cfg : CarrierConfig)
    (state : Option UpsToken) (now : Int) (outcome : HttpOutcome) :
    (∀ t, state = some t → t.expiresAt > now + 5 * 60 * 1000 →
      getValidToken cfg state now outcome = (.ok t, some t, 0)) ∧
    (∀ t, state = some t → t.expiresAt ≤ now + 5 * 60 * 1000 →
      (getValidToken cfg state now outcome).2.2 = 1) ∧
    (state = none → (getValidToken cfg state now outcome).2.2 = 1) := by
  refine ⟨?_, ?_, ?_⟩
  · intro t ht hfresh
    subst ht
    have hv : isTokenValid now t = true := by
      simp [isTokenValid, TOKEN_REFRESH_BUFFER_MS]
      omega
    simp [getValidToken, hv]
  · intro t ht hstale
    subst ht
    have hv : isTokenValid now t = false := by
      simp [isTokenValid, TOKEN_REFRESH_BUFFER_MS]
      omega
    simp only [getValidToken, hv, Bool.false_eq_true, if_false]
    cases acquireToken cfg now outcome <;> simp
  · intro h
    subst h
    simp only [getValidToken]
    cases acquireToken cfg now outcome <;> simp

/-- Witness for `getValidToken_reuse_or_single_refresh`: a fresh credential is
reused with no transport call; an expiring one and an empty cache each trigger
exactly one call. -/
theorem getValidToken_reuse_or_single_refresh_witness :
    getValidToken {} (some ⟨"A", "Bearer", 10000000⟩) 0
        (.resp 503 "Service Unavailable" .jsNull) =
      (.ok ⟨"A", "Bearer", 10000000⟩, some ⟨"A", "Bearer", 10000000⟩, 0) ∧
    (getValidToken {} (some ⟨"A", "Bearer", 120000⟩) 0
        (.resp 503 "Service Unavailable" .jsNull)).2.2 = 1 ∧
    (getValidToken {} none 0 (.resp 503 "Service Unavailable" .jsNull)).2.2 = 1 :=
  ⟨(getValidToken_reuse_or_single_refresh {} (some ⟨"A", "Bearer", 10000000⟩) 0
      (.resp 503 "Service Unavailable" .jsNull)).1 ⟨"A", "Bearer", 10000000⟩ rfl
      (by decide),
   (getValidToken_reuse_or_single_refresh {} (some ⟨"A", "Bearer", 120000⟩) 0
      (.resp 503 "Service Unavailable" .jsNull)).2.1 ⟨"A", "Bearer", 120000⟩ rfl
      (by decide),
   (getValidToken_reuse_or_single_refresh {} none 0
      (.resp 503 "Service Unavailable" .jsNull)).2.2 rfl⟩

/-- C7: a rate request that fails the domain schema makes `getRates` return a
failure of severity VALIDATION with zero transport calls to either the token
endpoint or the rate endpoint. -/
theorem getRates_validation_short_circuit (cfg : CarrierConfig)
    (env : GatewayEnv) (request : RateRequest)
    (h : validRateRequest request = false) :
    (serviceGetRates cfg env request).tokenCalls = 0 ∧
    (serviceGetRates cfg env request).rateCalls = 0 ∧
    ∃ e, (serviceGetRates cfg env request).result = .error e ∧
      e.severity = .VALIDATION_ERROR := by
  unfold validRateRequest at h
  unfold serviceGetRates
  simp only [h]
  simp [createValidationError]

/-- Witness for `getRates_validation_short_circuit` at a request with a
negative package weight. -/
theorem getRates_validation_short_circuit_witness :
    validRateRequest
      { origin := { street1 := "123 Main St", city := "San Francisco",
                    stateOrProvince := "CA", postalCode := "94102",
                    countryCode := "US" }
        destination := { street1 := "456 Oak Ave", city := "New York",
                         stateOrProvince := "NY", postalCode := "10001",
                         countryCode := "US" }
        package := { weight := -1, weightUnit := "lbs", length := 10,
                     width := 8, height := 6, dimensionUnit := "in" } } = false ∧
    ((serviceGetRates {}
        { tokenState := none, now := 0,
          tokenOutcome := .resp 503 "down" .jsNull,
          rateOutcome := .resp 503 "down" .jsNull }
        { origin := { street1 := "123 Main St", city := "San Francisco",
                      stateOrProvince := "CA", postalCode := "94102",
                      countryCode := "US" }
          destination := { street1 := "456 Oak Ave", city := "New York",
                           stateOrProvince := "NY", postalCode := "10001",
                           countryCode := "US" }
          package := { weight := -1, weightUnit := "lbs", length := 10,
                       width := 8, height := 6, dimensionUnit := "in" } }).tokenCalls = 0 ∧
      (serviceGetRates {}
        { tokenState := none, now := 0,
          tokenOutcome := .resp 503 "down" .jsNull,
          rateOutcome := .resp 503 "down" .jsNull }
        { origin := { street1 := "123 Main St", city := "San Francisco",
                      stateOrProvince := "CA", postalCode := "94102",
                      countryCode := "US" }
          destination := { street1 := "456 Oak Ave", city := "New York",
                           stateOrProvince := "NY", postalCode := "10001",
                           countryCode := "US" }
          package := { weight := -1, weightUnit := "lbs", length := 10,
                       width := 8, height := 6, dimensionUnit := "in" } }).rateCalls = 0 ∧
      ∃ e, (serviceGetRates {}
        { tokenState := none, now := 0,
          tokenOutcome := .resp 503 "down" .jsNull,
          rateOutcome := .resp 503 "down" .jsNull }
        { origin := { street1 := "123 Main St", city := "San Francisco",
                      stateOrProvince := "CA", postalCode := "94102",
                      countryCode := "US" }
          destination := { street1 := "456 Oak Ave", city := "New York",
                           stateOrProvince := "NY", postalCode := "10001",
                           countryCode := "US" }
          package := { weight := -1, weightUnit := "lbs", length := 10,
                       width := 8, height := 6, dimensionUnit := "in" } }).result = .error e ∧
        e.severity = .VALIDATION_ERROR) :=
  ⟨by decide,
   getRates_validation_short_circuit {}
     { tokenState := none, now := 0,
       tokenOutcome := .resp 503 "down" .jsNull,
       rateOutcome := .resp 503 "down" .jsNull }
     { origin := { street1 := "123 Main St", city := "San Francisco",
                   stateOrProvince := "CA", postalCode := "94102",
                   countryCode := "US" }
       destination := { street1 := "456 Oak Ave", city := "New York",
                        stateOrProvince := "NY", postalCode := "10001",
                        countryCode := "US" }
       package := { weight := -1, weightUnit := "lbs", length := 10,
                    width := 8, height := 6, dimensionUnit := "in" } }
     (by decide)⟩

end CarrierService

namespace CarrierService

set_option maxHeartbeats 2000000 in
/-- C2 counterexample: on a schema-invalid request (zero weight), the
gateway's `getRates` returns an error whose `carrier` field is unset, not
`'ups'` — refuting the claim that every error `Result` carries the gateway's
carrier id. -/
theorem getRates_validation_error_lacks_carrier_cex :
    validRateRequest zeroWeightRequest = false ∧
    (errorOf (serviceGetRates {}
        { tokenState := none, now := 0, tokenOutcome := happyTokenOutcome,
          rateOutcome := serverErrorOutcome }
        zeroWeightRequest).result).map CarrierError.carrier = some none ∧
    (errorOf (serviceGetRates {}
        { tokenState := none, now := 0, tokenOutcome := happyTokenOutcome,
          rateOutcome := serverErrorOutcome }
        zeroWeightRequest).result).map CarrierError.severity =
      some .VALIDATION_ERROR := by
  refine ⟨by decide, by decide, by decide⟩

set_option maxHeartbeats 2000000 in
/-- C2 (amended): every error `Result` returned by `getRates` on a request
that passes the domain schema (token-acquisition, transport/HTTP/parse, and
unexpected-exception failures) has `carrier = 'ups'`; the input-validation
failure returns a VALIDATION error whose `carrier` is unset. -/
theorem getRates_error_attribution (cfg : CarrierConfig) (env : GatewayEnv)
    (request : RateRequest) (e : CarrierError)
    (h : (serviceGetRates cfg env request).result = .error e) :
    (validRateRequest request = true → e.carrier = some "ups") ∧
    (validRateRequest request = false →
      e.severity = .VALIDATION_ERROR ∧ e.carrier = none) := by
  unfold validRateRequest
  by_cases hv : (validateRateRequestIssues request).isEmpty
  · refine ⟨fun _ => ?_, fun hfalse => by rw [hv] at hfalse; cases hfalse⟩
    unfold serviceGetRates at h
    simp only [hv, not_true_eq_false, if_false] at h
    rcases hg : getValidToken cfg env.tokenState env.now env.tokenOutcome with ⟨r, st, n⟩
    rw [hg] at h
    cases r with
    | error e0 =>
      injection h with h'
      rw [← h']
    | ok tok =>
      dsimp only at h
      cases hc : clientGetRates cfg env.rateOutcome with
      | error e1 =>
        rw [hc] at h
        dsimp only at h
        injection h with h'
        rw [← h']
      | ok data =>
        rw [hc] at h
        dsimp only at h
        cases hm : toRateResponse data with
        | ok mapped =>
          rw [hm] at h
          dsimp only at h
          cases h
        | error u =>
          rw [hm] at h
          dsimp only at h
          injection h with h'
          rw [← h']
          rfl
  · refine ⟨?_, ?_⟩
    · intro htrue
      rw [htrue] at hv
      exact absurd rfl hv
    · intro _
      unfold serviceGetRates at h
      have hv' : (validateRateRequestIssues request).isEmpty = false := by
        cases hb : (validateRateRequestIssues request).isEmpty
        · rfl
        · exact absurd hb hv
      simp only [hv', not_false_eq_true, if_true] at h
      injection h with h'
      rw [← h']
      exact ⟨rfl, rfl⟩

set_option maxHeartbeats 2000000 in
/-- Witness for `getRates_error_attribution`: a token-endpoint 401 on a valid
request yields an error attributed to `'ups'`. -/
theorem getRates_error_attribution_witness :
    (errorOf (serviceGetRates {}
        { tokenState := none, now := 0, tokenOutcome := unauthorizedOutcome,
          rateOutcome := serverErrorOutcome }
        sampleRequest).result).map CarrierError.carrier = some (some "ups") := by
  have h : (serviceGetRates {}
      { tokenState := none, now := 0, tokenOutcome := unauthorizedOutcome,
        rateOutcome := serverErrorOutcome }
      sampleRequest).result =
      .error (httpErrorToCarrierError 401 "Unauthorized"
        (.obj [("error", .str "Invalid credentials")]) (some "ups")) := rfl
  have hc := (getRates_error_attribution {}
      { tokenState := none, now := 0, tokenOutcome := unauthorizedOutcome,
        rateOutcome := serverErrorOutcome }
      sampleRequest _ h).1 (by decide)
  rw [h]
  simp only [errorOf, Option.map]
  exact congrArg some hc

end CarrierService

namespace CarrierService

/-- C3 counterexample: starting from a cached stale credential, a failing
acquisition exchange (HTTP 500) returns a failure Result but leaves the stale
credential cached — the store is NOT in the no-token state afterwards,
refuting the claim that no credential remains cached. -/
theorem tokenStore_failure_keeps_stale_cache_cex :
    isTokenValid 999999 staleToken = false ∧
    (errorOf (getValidToken {} (some staleToken) 999999 serverErrorOutcome).1).isSome
      = true ∧
    (getValidToken {} (some staleToken) 999999 serverErrorOutcome).2.1 =
      some staleToken := by
  refine ⟨by decide, by decide, by decide⟩

/-- C3 (amended): on every failing acquisition exchange `getValidToken`
returns the failure Result and leaves the cached-credential state unchanged —
from no-token it stays no-token (failures are never cached), and a previously
cached stale credential is not cleared. -/
theorem tokenStore_failure_preserves_state (cfg : CarrierConfig)
    (state : Option UpsToken) (now : Int) (outcome : HttpOutcome)
    (e : CarrierError)
    (h : (getValidToken cfg state now outcome).1 = .error e) :
    (getValidToken cfg state now outcome).2.1 = state := by
  cases state with
  | none =>
    simp only [getValidToken] at h ⊢
    cases ha : acquireToken cfg now outcome with
    | ok t => rw [ha] at h; cases h
    | error e0 => rfl
  | some t =>
    cases hv : isTokenValid now t with
    | true =>
      simp only [getValidToken, hv, if_true] at h
      cases h
    | false =>
      simp only [getValidToken, hv, Bool.false_eq_true, if_false] at h ⊢
      cases ha : acquireToken cfg now outcome with
      | ok tok => rw [ha] at h; cases h
      | error e0 => rfl

/-- Witness for `tokenStore_failure_preserves_state`: a failing exchange from
the empty cache leaves the cache empty. -/
theorem tokenStore_failure_preserves_state_witness :
    (getValidToken {} none 0 serverErrorOutcome).2.1 = none := by
  have h : (getValidToken {} none 0 serverErrorOutcome).1 =
      .error (httpErrorToCarrierError 500 "Internal Server Error" .jsNull
        (some "ups")) := rfl
  exact tokenStore_failure_preserves_state {} none 0 serverErrorOutcome _ h

/-- C5: the token store REJECTS an exchange response whose `expires_in` is
absent or zero with a VALIDATION failure (the Zod schema requires a positive
integer `expires_in`), instead of defaulting the lifetime to 3600 s as the
spec states; with a positive `expires_in` it succeeds with
`expiresAt = now + expires_in * 1000`. -/
theorem acquireToken_rejects_missing_or_zero_expires_in :
    (errorOf (acquireToken {} 1000 (.resp 200 "OK"
        (.obj [("access_token", .str "T"), ("token_type", .str "Bearer")])))).map
      CarrierError.severity = some .VALIDATION_ERROR ∧
    (errorOf (acquireToken {} 1000 (.resp 200 "OK"
        (.obj [("access_token", .str "T"), ("token_type", .str "Bearer"),
               ("expires_in", .num 0)])))).map CarrierError.severity =
      some .VALIDATION_ERROR ∧
    acquireToken {} 1000 (.resp 200 "OK"
        (.obj [("access_token", .str "T"), ("token_type", .str "Bearer"),
               ("expires_in", .num 3600)])) =
      .ok { accessToken := "T", tokenType := "Bearer",
            expiresAt := 1000 + 3600 * 1000 } := by
  refine ⟨by decide, by decide, rfl⟩

end CarrierService

namespace CarrierService

set_option maxHeartbeats 2000000 in
/-- C1: a rate call whose transport response is 2xx with a payload that
violates the carrier rate-response schema is returned by `getRates` as a
SUCCESS carrying zero quotes — no VALIDATION error is produced (the client
never invokes the rate-response schema), refuting both halves of the claim. -/
theorem getRates_nonconforming_payload_succeeds_without_quotes :
    validUpsRateResponse nonconformingRateBody = false ∧
    quotesOf (serviceGetRates {}
        { tokenState := none, now := 0, tokenOutcome := happyTokenOutcome,
          rateOutcome := .resp 200 "OK" nonconformingRateBody }
        sampleRequest).result = some 0 := by
  refine ⟨by decide, by decide⟩

end CarrierService

namespace CarrierService

/-- C8 counterexample: a raw error whose message contains "Timeout" only in
mixed case is case-insensitively a timeout, yet `networkErrorToCarrierError`
passes the raw message through unchanged instead of producing the
timed-out-after message — the detection is case-sensitive, refuting the
claim. -/
theorem networkError_case_sensitivity_cex :
    strIncludes (strToLower "Connection Timeout") "timeout" = true ∧
    (networkErrorToCarrierError (.err "Error" "Connection Timeout") (some "ups")
        (some 30000)).message = "Connection Timeout" ∧
    "Connection Timeout" ≠ "Request timed out after 30000ms" := by
  refine ⟨by decide, by decide, by decide⟩

/-- C8 (amended): `fromNetworkFailure` always yields severity NETWORK and
code NETWORK_ERROR; detection is CASE-SENSITIVE substring inspection of the
raw message ('timeout'/'ETIMEDOUT' for timeouts, plus the exact error name
'TimeoutError'; 'ECONNREFUSED'/'ENOTFOUND'/'network' for connection
failures, connection detection taking precedence), the timeout message states
the elapsed timeout value when a (truthy) one is supplied, the
connection-failure message says it failed to connect, and otherwise the raw
message (or a raw string error) passes through unchanged. -/
theorem networkError_classification (e : JsRaw) (c : Option String)
    (t : Option Nat) :
    (networkErrorToCarrierError e c t).severity = .NETWORK_ERROR ∧
    (networkErrorToCarrierError e c t).code = "NETWORK_ERROR" ∧
    (∀ name msg, e = .err name msg →
      (networkErrorToCarrierError e c t).message =
        (if connectionDetected msg then "Failed to connect to carrier API"
         else if timeoutDetected name msg then timeoutMessageFor t
         else msg)) ∧
    (∀ s, e = .val (.str s) → (networkErrorToCarrierError e c t).message = s) := by
  refine ⟨?_, ?_, ?_, ?_⟩
  · cases e with
    | err name msg => rfl
    | val v => cases v <;> rfl
  · cases e with
    | err name msg => rfl
    | val v => cases v <;> rfl
  · intro name msg he
    subst he
    rfl
  · intro s he
    subst he
    rfl

/-- Witness for `networkError_classification`: a `TimeoutError` with a
supplied 77 ms timeout yields the timed-out-after message with severity
NETWORK. -/
theorem networkError_classification_witness :
    (networkErrorToCarrierError (.err "TimeoutError" "boom") none
        (some 77)).message = "Request timed out after 77ms" ∧
    (networkErrorToCarrierError (.err "TimeoutError" "boom") none
        (some 77)).severity = .NETWORK_ERROR := by
  have h := networkError_classification (.err "TimeoutError" "boom") none (some 77)
  have hm := h.2.2.1 "TimeoutError" "boom" rfl
  refine ⟨?_, h.1⟩
  rw [hm]
  decide

/-- C9 counterexample: a truthy body of a type other than object or string
(the number 7) is NOT attached under `details.responseBody` — `details` is
absent — refuting the claim that `fromHttpResponse` attaches the raw body for
every HTTP failure response. -/
theorem fromHttpResponse_numeric_body_drops_details_cex :
    (JsVal.num 7).truthy = true ∧
    (httpErrorToCarrierError 500 "Internal Server Error" (.num 7) none).details
      = none := by
  refine ⟨by decide, rfl⟩

/-- C9 (amended): `fromHttpResponse` builds `code = "HTTP_<status>"`,
classifies the severity from the status, records the status, chooses the
message by the claimed priority order (top-level string `message`, else
top-level string `error`, else the string `message` of the first element of
an `errors` array, else `"HTTP <status>: <statusText>"`), and attaches the
raw body under `details.responseBody` exactly when the body is a truthy
value of object or string type (otherwise `details` is absent). -/
theorem fromHttpResponse_characterization (status : Nat) (statusText : String)
    (body : JsVal) (carrier : Option String) :
    (httpErrorToCarrierError status statusText body carrier).code =
      "HTTP_" ++ toString status ∧
    (httpErrorToCarrierError status statusText body carrier).severity =
      httpStatusToSeverity status ∧
    (httpErrorToCarrierError status statusText body carrier).httpStatus =
      some status ∧
    (httpErrorToCarrierError status statusText body carrier).message =
      specHttpErrorMessage body ("HTTP " ++ toString status ++ ": " ++ statusText) ∧
    (httpErrorToCarrierError status statusText body carrier).details =
      (if body.truthy && (body.isObjectType || body.isStrVal) then
        some [("responseBody", body)] else none) := by
  refine ⟨rfl, rfl, rfl, ?_, ?_⟩
  · cases body with
    | obj fields =>
      show httpErrorBodyMessage (JsVal.obj fields) _ = _
      unfold httpErrorBodyMessage specHttpErrorMessage
      cases hm : (JsVal.obj fields).getStrProp "message" with
      | some m => simp [hm]
      | none =>
        cases he : (JsVal.obj fields).getStrProp "error" with
        | some m => simp [hm, he]
        | none =>
          simp only [hm, he]
          cases hes : (JsVal.obj fields).getProp "errors" with
          | arr xs =>
            cases xs with
            | nil => simp [hes]
            | cons first rest =>
              simp only [hes]
              cases first <;>
                simp [JsVal.isObjectType, JsVal.getStrProp, JsVal.getProp,
                  JsVal.props]
          | undefined => simp [hes]
          | jsNull => simp [hes]
          | bool b => simp [hes]
          | num n => simp [hes]
          | str sv => simp [hes]
          | obj fs => simp [hes]
    | _ =>
      simp [httpErrorToCarrierError, httpErrorBodyMessage, specHttpErrorMessage,
        JsVal.getStrProp, JsVal.getProp, JsVal.props, JsVal.truthy,
        JsVal.isObjectType]
  · cases body <;>
      simp [httpErrorToCarrierError, JsVal.truthy, JsVal.isObjectType,
        JsVal.isStrVal]

end CarrierService

namespace CarrierService

/-- C10: when an acquisition exchange succeeds with a short lifetime
(`expires_in * 1000` within the 5-minute refresh buffer), `getValidToken`
still caches and returns the new credential, and the immediately following
call (at any clock reading not before the first) performs another acquisition
exchange instead of reusing it. -/
theorem shortLived_token_cached_then_reacquired (cfg : CarrierConfig)
    (now1 now2 : Int) (status : Nat) (statusText : String) (body : JsVal)
    (tr : UpsTokenResponse) (outcome2 : HttpOutcome)
    (h2xx : 200 ≤ status ∧ status < 300)
    (hnotstr : body.isStrVal = false)
    (hval : validateUpsTokenResponseSafe body = .ok tr)
    (hpos : 0 < tr.expires_in)
    (hshort : tr.expires_in * 1000 ≤ 5 * 60 * 1000)
    (hmono : now1 ≤ now2) :
    getValidToken cfg none now1 (.resp status statusText body) =
      (.ok { accessToken := tr.access_token, tokenType := tr.token_type,
             expiresAt := now1 + tr.expires_in * 1000 },
       some { accessToken := tr.access_token, tokenType := tr.token_type,
              expiresAt := now1 + tr.expires_in * 1000 }, 1) ∧
    (getValidToken cfg
        (some { accessToken := tr.access_token, tokenType := tr.token_type,
                expiresAt := now1 + tr.expires_in * 1000 })
        now2 outcome2).2.2 = 1 := by
  have hacq : acquireToken cfg now1 (.resp status statusText body) =
      .ok { accessToken := tr.access_token, tokenType := tr.token_type,
            expiresAt := now1 + tr.expires_in * 1000 } := by
    unfold acquireToken
    have hcond : ¬ (status < 200 ∨ 300 ≤ status) := by omega
    simp only [hcond, if_false]
    have hnz : tr.expires_in ≠ 0 := by omega
    cases body with
    | str sbody => cases hnotstr
    | undefined => dsimp only; rw [hval]; simp [hnz]
    | jsNull => dsimp only; rw [hval]; simp [hnz]
    | bool b => dsimp only; rw [hval]; simp [hnz]
    | num n => dsimp only; rw [hval]; simp [hnz]
    | arr xs => dsimp only; rw [hval]; simp [hnz]
    | obj fs => dsimp only; rw [hval]; simp [hnz]
  constructor
  · simp only [getValidToken]
    rw [hacq]
  · have hv : isTokenValid now2
        { accessToken := tr.access_token, tokenType := tr.token_type,
          expiresAt := now1 + tr.expires_in * 1000 } = false := by
      simp [isTokenValid, TOKEN_REFRESH_BUFFER_MS]
      omega
    simp only [getValidToken, hv, Bool.false_eq_true, if_false]
    cases acquireToken cfg now2 outcome2 <;> simp

/-- Witness for `shortLived_token_cached_then_reacquired`: a 60-second
lifetime (inside the 5-minute buffer) is cached and returned, and the next
call one millisecond later makes another transport call. -/
theorem shortLived_token_cached_then_reacquired_witness :
    getValidToken {} none 0 (.resp 200 "OK"
        (.obj [("access_token", .str "S"), ("token_type", .str "Bearer"),
               ("expires_in", .num 60)])) =
      (.ok { accessToken := "S", tokenType := "Bearer",
             expiresAt := 0 + 60 * 1000 },
       some { accessToken := "S", tokenType := "Bearer",
              expiresAt := 0 + 60 * 1000 }, 1) ∧
    (getValidToken {}
        (some { accessToken := "S", tokenType := "Bearer",
                expiresAt := 0 + 60 * 1000 }) 1 serverErrorOutcome).2.2 = 1 :=
  shortLived_token_cached_then_reacquired {} 0 1 200 "OK"
    (.obj [("access_token", .str "S"), ("token_type", .str "Bearer"),
           ("expires_in", .num 60)])
    { access_token := "S", token_type := "Bearer", expires_in := 60,
      issued_at := none }
    serverErrorOutcome (by decide) rfl rfl (by decide) (by decide) (by decide)

end CarrierService
